import Mathlib

/-!
Shallow embedding of `go-strato` (`src/client.go`), a Go client for the
Strato web control panel that authenticates, resolves a customer
identifier (`cID`), and reads/writes DNS TXT/SPF/DMARC configuration by
scraping and resubmitting HTML forms.

Network I/O and HTML parsing are modelled by passing the observable
result of each HTTP exchange (transport errors, status code, `Location`
header, and the relevant query results on the parsed document) as
explicit inputs; the Go methods become pure functions of the client
state and those inputs.  Go's standard-library string operations
(`strings.Split`, `strings.Cut`, `strings.HasPrefix`,
`strings.TrimPrefix`, `strings.Join`, `net/url` query parsing) are
embedded as structurally recursive Lean functions on `List Char` so
that every definition evaluates by `decide`/`rfl`.  The `net/url`
model is restricted to locations without percent-escapes (none of the
claims exercise percent-decoding), and `url.Parse`'s own error branch
(only reachable via control characters in the URL) is omitted.
-/

namespace Strato

/-- Go `strings.Split(s, sep)` with a one-character separator,
on the character-list representation: splits around every occurrence
of `ch`; the empty string yields `[[]]`, as in Go. -/
def splitOnChar (ch : Char) : List Char → List (List Char)
  | [] => [[]]
  | c :: rest =>
    let r := splitOnChar ch rest
    if c = ch then [] :: r
    else
      match r with
      | [] => [[c]]
      | h :: t => (c :: h) :: t

/-- Go `strings.Cut(s, sep)` with a one-character separator: returns the
part before the first occurrence of `ch` and the part after it; when
`ch` does not occur, the second component is empty (Go returns
`(s, "", false)` and all call sites here ignore the flag). -/
def cutChar (ch : Char) : List Char → List Char × List Char
  | [] => ([], [])
  | c :: rest =>
    if c = ch then ([], rest)
    else
      let p := cutChar ch rest
      (c :: p.1, p.2)

/-- Go `strings.Split(s, "&")` as a function on `String`. -/
def goSplitAmp (s : String) : List String :=
  (splitOnChar '&' s.data).map (fun l => ⟨l⟩)

/-- Go `strings.HasPrefix(s, pre)`. -/
def goHasPrefix (s pre : String) : Bool :=
  pre.data.isPrefixOf s.data

/-- Go `strings.TrimPrefix(s, pre)` under the assumption that `pre`
is an ASCII prefix of byte length `n` (all uses in the source trim the
4-byte literal prefix of a `cID=` segment). -/
def goDropChars (n : Nat) (s : String) : String :=
  ⟨s.data.drop n⟩

/-- Go `strings.Join(parts, sep)`. -/
def goJoin (sep : String) : List String → String
  | [] => ""
  | [x] => x
  | x :: xs => x ++ sep ++ goJoin sep xs

/-- Go `net/url` `ParseQuery` on a raw query string, without
percent-decoding: segments are cut at each `&`; empty segments and
segments containing `;` are skipped; each segment is cut at its first
`=` into a key/value pair (a segment with no `=` gets value `""`). -/
def parseQuery (q : String) : List (String × String) :=
  (splitOnChar '&' q.data).filterMap (fun seg =>
    if seg = [] then none
    else if seg.contains ';' then none
    else
      let p := cutChar '=' seg
      some (⟨p.1⟩, ⟨p.2⟩))

/-- Go `url.Values.Get(key)`: the value of the first pair whose key
matches, or `""` when the key is absent. -/
def queryGet (q : String) (key : String) : String :=
  match (parseQuery q).find? (fun p => p.1 = key) with
  | some p => p.2
  | none => ""

/-- Go `url.Parse(loc).RawQuery`: the fragment (everything from the
first `#`) is stripped first, then the raw query is everything after
the first `?` of what remains. -/
def rawQuery (loc : String) : String :=
  ⟨(cutChar '?' (cutChar '#' loc.data).1).2⟩

/-- Structure `DNSRecord` from `src/client.go`: one TXT-family record fragment. -/
structure DNSRecord where
  «Type» : String
  Prefix : String
  Value : String
  deriving Repr, DecidableEq

/-- Structure `DNSConfig` from `src/client.go`: the full DNS configuration. -/
structure DNSConfig where
  DMARCType : String
  SPFType : String
  Records : List DNSRecord
  deriving Repr, DecidableEq

/-- Structure `StratoClient` from `src/client.go`, without the `*http.Client`
session field (the transport is passed explicitly to each operation).
`cID` and `sessionID` start out as Go zero values `""` and are
populated by `populatePackageID` and `authenticate`. -/
structure StratoClient where
  api : String
  identifier : String
  password : String
  order : String
  domain : String
  cID : String
  sessionID : String
  deriving Repr, DecidableEq

/-- Observable part of an HTTP response for the status-classification
paths: the status code and the `Location` header.  (Go's
`resp.Status` reason string is modelled by the decimal status code.) -/
structure HttpResponse where
  statusCode : Nat
  location : String
  deriving Repr, DecidableEq

/-- Login form body built by `authenticate` (src/client.go:97-101):
three raw `key=value` strings, appended in order, with no URL-encoding
of the credential values. -/
def loginForm (c : StratoClient) : List String :=
  ["identifier=" ++ c.identifier,
   "passwd=" ++ c.password,
   "action_customer_login.x=Login"]

/-- The login POST body: `strings.Join(form, "&")` (src/client.go:101). -/
def loginBody (c : StratoClient) : String :=
  goJoin "&" (loginForm c)

/-- Method `authenticate` (src/client.go:73-137).  `getResult` is the outcome
of the preliminary GET (its response is used only for its cookies,
which the model does not track; an error aborts); `postResult` is the
outcome of the login POST (request-creation and transport errors are
collapsed into `.error`).  On 302 the session token is read from the
`sessionID` query parameter of the `Location` URL. -/
def authenticate (c : StratoClient) (getResult : Except String Unit)
    (postResult : Except String HttpResponse) : Except String StratoClient :=
  match getResult with
  | .error e => .error e
  | .ok _ =>
    match postResult with
    | .error e => .error e
    | .ok resp =>
      if resp.statusCode = 302 then
        let sid := queryGet (rawQuery resp.location) "sessionID"
        if sid = "" then .error "sessionID not found in redirect URL"
        else .ok { c with sessionID := sid }
      else if resp.statusCode = 200 then
        .error "authentication failed"
      else
        .error ("unexpected response status: " ++ toString resp.statusCode)

/-- Result of `htmlquery.FindOne(doc, "//div[@data-pkg-name-order=...]")`
followed by `FindOne(div, ".//a")` and `SelectAttr(linkNode, "href")`
on the dashboard page: the list of container divs, each carrying its
`data-pkg-name-order` attribute and, when a nested `<a>` exists, that
first link's `href` attribute (`""` when the attribute is absent). -/
structure Dashboard where
  divs : List (String × Option String)
  deriving Repr, DecidableEq

/-- First container div whose `data-pkg-name-order` attribute equals
`order`, as found by the XPath lookup in src/client.go:160. -/
def findOrderDiv (d : Dashboard) (order : String) : Option (Option String) :=
  (d.divs.find? (fun p => p.1 = order)).map Prod.snd

/-- Outcome of the GET + HTML parse that feeds `populatePackageID`:
request-creation failure, transport failure, `htmlquery.Parse`
failure, or a parsed dashboard. -/
inductive FetchResult where
  | reqError (e : String)
  | sendError (e : String)
  | parseError (e : String)
  | ok (d : Dashboard)
  deriving Repr, DecidableEq

/-- Method `populatePackageID` (src/client.go:139-185).  Note that the source
returns `nil` — not the error — when request creation or the HTTP send
fails (src/client.go:146-154), so those two cases succeed without
setting `cID`; an `htmlquery.Parse` failure is propagated.  The link
is split on `&` and the first segment with prefix `cID=` (if any) has
that prefix trimmed and is stored in `c.cID`; an empty resulting `cID`
is an error. -/
def populatePackageID (c : StratoClient) (r : FetchResult) : Except String StratoClient :=
  match r with
  | .reqError _ => .ok c
  | .sendError _ => .ok c
  | .parseError e => .error e
  | .ok d =>
    match findOrderDiv d c.order with
    | none => .error "failed to find order"
    | some none => .error "failed to find link"
    | some (some link) =>
      if link = "" then .error "failed to find link value"
      else
        let c' :=
          match (goSplitAmp link).find? (fun part => goHasPrefix part "cID=") with
          | some part => { c with cID := goDropChars 4 part }
          | none => c
        if c'.cID = "" then .error "failed to find cID in link"
        else .ok c'

/-- Constructor `NewStratoClient` (src/client.go:39-70): builds the client with
zero-valued `cID`/`sessionID`, then runs `authenticate` and
`populatePackageID` eagerly, failing construction when either returns
an error.  (`cookiejar.New(nil)` never fails and is omitted.) -/
def NewStratoClient (api identifier password order domain : String)
    (getResult : Except String Unit) (postResult : Except String HttpResponse)
    (dash : FetchResult) : Except String StratoClient :=
  let c : StratoClient :=
    { api := api, identifier := identifier, password := password,
      order := order, domain := domain, cID := "", sessionID := "" }
  match authenticate c getResult postResult with
  | .error e => .error e
  | .ok c1 =>
    match populatePackageID c1 dash with
    | .error e => .error e
    | .ok c2 => .ok c2

/-- One record template row of the TXT-records form, as seen through
the three XPath lookups of src/client.go:246-248: the `value`
attribute of the selected option of the `type` select (`none` when no
selected option exists), the `value` attribute of the `prefix` input
(`none` when the input is absent; `htmlquery.SelectAttr` on a missing
node yields `""`), and the inner text of the `value` textarea (`none`
when the textarea is absent). -/
structure RecordRow where
  typeVal : Option String
  prefixVal : Option String
  valueText : Option String
  deriving Repr, DecidableEq

/-- The TXT-records form (`form#jss_txt_record_form`) as seen through
the XPath lookups of src/client.go:223-248: the `value` attribute of
the checked `dmarc_type` input (`none` when absent), likewise for
`spf_type`, and the record template rows in document order. -/
structure TxtForm where
  dmarcChecked : Option String
  spfChecked : Option String
  rows : List RecordRow
  deriving Repr, DecidableEq

/-- The parsed TXT-records page: the form with the fixed id, when
present. -/
structure TxtPage where
  form : Option TxtForm
  deriving Repr, DecidableEq

/-- Outcome of the records GET as `GetDNSConfiguration` observes it:
request-creation failure, transport failure, or a response with a
status code and a body whose `htmlquery.Parse` result is an error or a
parsed page. -/
inductive GetInput where
  | reqError (e : String)
  | sendError (e : String)
  | resp (status : Nat) (body : Except String TxtPage)
  deriving Repr

/-- The record-row loop of `GetDNSConfiguration`
(src/client.go:243-258): a row is kept exactly when both its selected
type option and its value textarea exist; the prefix defaults to `""`
when the prefix input is absent (`SelectAttr` on `nil`). -/
def parseRows (rows : List RecordRow) : List DNSRecord :=
  rows.filterMap (fun r =>
    match r.typeVal, r.valueText with
    | some t, some v => some { «Type» := t, Prefix := r.prefixVal.getD "", Value := v }
    | _, _ => none)

/-- Method `GetDNSConfiguration` (src/client.go:188-261), in state-passing
form: the pair's first component is the client state after the call
(the method never assigns to any field of `c`).  Any status other than
200 (`http.StatusOK`) is a fetch failure; then the form, the checked
`dmarc_type` and `spf_type` inputs and their non-empty values are
required in turn, and the record rows are folded by `parseRows`. -/
def GetDNSConfiguration (c : StratoClient) (input : GetInput) :
    StratoClient × Except String DNSConfig :=
  match input with
  | .reqError e => (c, .error e)
  | .sendError e => (c, .error e)
  | .resp status body =>
    if status ≠ 200 then (c, .error "failed to fetch TXT records")
    else
      match body with
      | .error e => (c, .error e)
      | .ok page =>
        match page.form with
        | none => (c, .error "failed to find form element")
        | some f =>
          match f.dmarcChecked with
          | none => (c, .error "failed to find dmarc_type element")
          | some d =>
            if d = "" then (c, .error "failed to find dmarc_type value")
            else
              match f.spfChecked with
              | none => (c, .error "failed to find spf_type element")
              | some s =>
                if s = "" then (c, .error "failed to find spf_type value")
                else
                  (c, .ok { DMARCType := d, SPFType := s, Records := parseRows f.rows })

/-- The write form body built by `SetDNSConfiguration`
(src/client.go:269-282), mirroring the Go append loop: six fixed
fields (note the literal `cID=1`, not the resolved `c.cID`), then
`type`/`prefix`/`value` for each record in order, then the fixed
submit marker with the provider's localized caption (the byte sequence
appearing in the source). -/
def setForm (c : StratoClient) (config : DNSConfig) : List String :=
  let form : List String :=
    ["sessionID=" ++ c.sessionID,
     "cID=1",
     "node=ManageDomains",
     "vhost=" ++ c.domain,
     "dmarc_type=" ++ config.DMARCType,
     "spf_type=" ++ config.SPFType]
  let form := config.Records.foldl
    (fun f r => f ++ ["type=" ++ r.Type, "prefix=" ++ r.Prefix, "value=" ++ r.Value])
    form
  form ++ ["action_change_txt_records=Einstellung Ã¼bernehmen"]

/-- The write POST body: `strings.Join(form, "&")` (src/client.go:282). -/
def setBody (c : StratoClient) (config : DNSConfig) : String :=
  goJoin "&" (setForm c config)

/-- Outcome of the write POST as `SetDNSConfiguration` observes it:
request-creation failure, transport failure, or a response status
code. -/
inductive SetInput where
  | reqError (e : String)
  | sendError (e : String)
  | resp (status : Nat)
  deriving Repr, DecidableEq

/-- Method `SetDNSConfiguration` (src/client.go:263-307), in state-passing
form: the pair's first component is the client state after the call
(the method never assigns to any field of `c`).  302 is success (the
redirect target is never fetched: the session client suppresses
redirects, src/client.go:53-56); 200 means the update was rejected;
anything else is an unexpected response. -/
def SetDNSConfiguration (c : StratoClient) (config : DNSConfig) (input : SetInput) :
    StratoClient × Except String Unit :=
  match input with
  | .reqError e => (c, .error e)
  | .sendError e => (c, .error e)
  | .resp status =>
    if status = 302 then (c, .ok ())
    else if status = 200 then (c, .error "update failed")
    else (c, .error ("unexpected response status: " ++ toString status))

/-- A sample client used to instantiate witness statements. -/
def sampleClient : StratoClient :=
  { api := "https://www.strato.de/apps/CustomerService",
    identifier := "user", password := "pw", order := "ORDER1",
    domain := "example.com", cID := "", sessionID := "S1" }

/-- A sample client whose password contains unencoded `&`/`=`
metacharacters. -/
def injectedClient : StratoClient :=
  { sampleClient with password := "a&passwd=evil" }

/-- A sample configuration whose record value contains unencoded
`&`/`=` metacharacters. -/
def injectedConfig : DNSConfig :=
  { DMARCType := "custom", SPFType := "custom",
    Records := [{ «Type» := "TXT", Prefix := "mail", Value := "v&type=EVIL" }] }

end Strato

deriving instance DecidableEq for Except

namespace Strato

/-- Folding record fields onto an accumulator list is the same as
appending the flattened per-record field lists. -/
theorem foldl_append_flatten {α β : Type} (g : α → List β) (rows : List α)
    (init : List β) :
    rows.foldl (fun f r => f ++ g r) init = init ++ (rows.map g).flatten := by
  induction rows generalizing init with
  | nil => simp
  | cons r rs ih => simp [ih]

/-- C3: the POST body built by `SetDNSConfiguration` consists of
exactly the session token, the literal `cID=1` placeholder (not the
resolved `cID`, which the body does not depend on), the
`node=ManageDomains` view selector, the target domain, `dmarc_type`,
`spf_type`, then `type`/`prefix`/`value` for each record in sequence
order, and finally the fixed submit marker field with the provider's
localized button caption. -/
theorem setForm_fields_exact (c : StratoClient) (config : DNSConfig) (x : String) :
    setForm c config =
      ["sessionID=" ++ c.sessionID, "cID=1", "node=ManageDomains",
       "vhost=" ++ c.domain, "dmarc_type=" ++ config.DMARCType,
       "spf_type=" ++ config.SPFType]
      ++ (config.Records.map
            (fun r => ["type=" ++ r.Type, "prefix=" ++ r.Prefix, "value=" ++ r.Value])).flatten
      ++ ["action_change_txt_records=Einstellung Ã¼bernehmen"]
    ∧ setForm { c with cID := x } config = setForm c config := by
  constructor
  · simp [setForm, foldl_append_flatten]
  · rfl

/-- C7: `SetDNSConfiguration` classifies the write response three
ways: 302 is success (the model consumes no payload: the response
alone decides the outcome), 200 is a rejected update, and any other
status is an unexpected-response error. -/
theorem setDNS_response_classification (c : StratoClient) (config : DNSConfig) (n : Nat) :
    SetDNSConfiguration c config (.resp 302) = (c, .ok ())
    ∧ SetDNSConfiguration c config (.resp 200) = (c, .error "update failed")
    ∧ (n ≠ 302 → n ≠ 200 →
        SetDNSConfiguration c config (.resp n)
          = (c, .error ("unexpected response status: " ++ toString n))) := by
  refine ⟨rfl, rfl, fun h302 h200 => ?_⟩
  simp [SetDNSConfiguration, h302, h200]

/-- Witness for the write-response classification at concrete
statuses. -/
theorem setDNS_response_classification_witness :
    SetDNSConfiguration sampleClient injectedConfig (.resp 404)
      = (sampleClient, .error ("unexpected response status: " ++ toString 404)) :=
  (setDNS_response_classification sampleClient injectedConfig 404).2.2
    (by decide) (by decide)

/-- C9: neither POST body percent-encodes its field values: the login
body is the literal `&`-join of raw `key=value` strings for every
client, and on a concrete password containing `&` and `=` the body,
decoded as form-urlencoded data, yields a `passwd` field different
from the intended password; likewise a record value containing
`&type=` makes the decoded write body contain a `type` field that no
record of the configuration has. -/
theorem post_bodies_not_urlencoded :
    (∀ c : StratoClient, loginBody c =
      "identifier=" ++ c.identifier ++ "&passwd=" ++ c.password
        ++ "&action_customer_login.x=Login")
    ∧ queryGet (loginBody injectedClient) "passwd" = "a"
    ∧ injectedClient.password ≠ "a"
    ∧ ("type", "EVIL") ∈ parseQuery (setBody sampleClient injectedConfig)
    ∧ injectedConfig.Records.all (fun r => r.Type != "EVIL") = true := by
  refine ⟨fun c => ?_, by decide, by decide, by decide, by decide⟩
  apply String.ext
  simp [loginBody, loginForm, goJoin, String.data_append]

/-- C10: neither `GetDNSConfiguration` nor `SetDNSConfiguration`
modifies any field of the client — in particular `sessionID` and
`cID` are unchanged by every call, on every success or failure path. -/
theorem client_state_unchanged (c : StratoClient) (input : GetInput)
    (config : DNSConfig) (sinput : SetInput) :
    (GetDNSConfiguration c input).1 = c ∧ (SetDNSConfiguration c config sinput).1 = c := by
  constructor
  · cases input with
    | reqError e => rfl
    | sendError e => rfl
    | resp status body =>
      simp only [GetDNSConfiguration]
      repeat' split
      all_goals rfl
  · cases sinput with
    | reqError e => rfl
    | sendError e => rfl
    | resp status =>
      simp only [SetDNSConfiguration]
      repeat' split
      all_goals rfl

/-- C1: the code contradicts the spec here — when the identifier
resolution GET fails at request creation or at send, `populatePackageID`
returns `nil` (src/client.go:146-154), so `NewStratoClient` returns a
usable client with an empty `cID` instead of failing construction. -/
theorem newClient_swallows_resolver_transport_error :
    NewStratoClient "https://api" "user" "pw" "ORDER1" "example.com"
      (.ok ()) (.ok ⟨302, "/x?sessionID=S1"⟩) (.sendError "connection refused")
      = .ok { api := "https://api", identifier := "user", password := "pw",
              order := "ORDER1", domain := "example.com", cID := "", sessionID := "S1" }
    ∧ NewStratoClient "https://api" "user" "pw" "ORDER1" "example.com"
      (.ok ()) (.ok ⟨302, "/x?sessionID=S1"⟩) (.reqError "request creation failed")
      = .ok { api := "https://api", identifier := "user", password := "pw",
              order := "ORDER1", domain := "example.com", cID := "", sessionID := "S1" } := by
  decide

/-- C2 counterexample: a 302 whose `Location` contains the query
parameter `sessionID` with an empty value is classified as a
malformed redirect, not as a success storing the empty token, so the
claimed success case does not hold for `T = ""`. -/
theorem authenticate_empty_token_counterexample :
    (parseQuery (rawQuery "/x?sessionID=&foo=bar")).find? (fun p => p.1 = "sessionID")
      = some ("sessionID", "")
    ∧ authenticate sampleClient (.ok ()) (.ok ⟨302, "/x?sessionID=&foo=bar"⟩)
      = .error "sessionID not found in redirect URL"
    ∧ authenticate sampleClient (.ok ()) (.ok ⟨302, "/x?sessionID=&foo=bar"⟩)
      ≠ .ok { sampleClient with sessionID := "" } := by
  decide

/-- C2 (amended): for every login response, `authenticate` classifies
it as follows: on 302 whose `Location` carries a non-empty `sessionID`
query parameter value `t`, it succeeds and stores exactly `t`; on 302
whose `Location` lacks a `sessionID` parameter or carries it with an
empty value, it fails with the malformed-redirect error; on 200 it
fails with the invalid-credentials error; on any other status it fails
with the unexpected-response error. -/
theorem authenticate_response_classification (c : StratoClient) (loc t : String) (n : Nat) :
    (queryGet (rawQuery loc) "sessionID" = t → t ≠ "" →
      authenticate c (.ok ()) (.ok ⟨302, loc⟩) = .ok { c with sessionID := t })
    ∧ (queryGet (rawQuery loc) "sessionID" = "" →
      authenticate c (.ok ()) (.ok ⟨302, loc⟩)
        = .error "sessionID not found in redirect URL")
    ∧ authenticate c (.ok ()) (.ok ⟨200, loc⟩) = .error "authentication failed"
    ∧ (n ≠ 302 → n ≠ 200 →
      authenticate c (.ok ()) (.ok ⟨n, loc⟩)
        = .error ("unexpected response status: " ++ toString n)) := by
  refine ⟨fun h ht => ?_, fun h => ?_, rfl, fun h302 h200 => ?_⟩
  · simp [authenticate, h, ht]
  · simp [authenticate, h]
  · simp [authenticate, h302, h200]

/-- Witness for the authentication classification: the spec's own
examples, `Location: /x?sessionID=abc123&foo=bar` resolves the token
`abc123`, a redirect lacking `sessionID` is a malformed redirect, and
a 404 is an unexpected response. -/
theorem authenticate_response_classification_witness :
    authenticate sampleClient (.ok ()) (.ok ⟨302, "/x?sessionID=abc123&foo=bar"⟩)
      = .ok { sampleClient with sessionID := "abc123" }
    ∧ authenticate sampleClient (.ok ()) (.ok ⟨302, "/x?foo=bar"⟩)
      = .error "sessionID not found in redirect URL"
    ∧ authenticate sampleClient (.ok ()) (.ok ⟨404, "/x"⟩)
      = .error ("unexpected response status: " ++ toString 404) :=
  ⟨(authenticate_response_classification sampleClient "/x?sessionID=abc123&foo=bar"
      "abc123" 404).1 (by decide) (by decide),
   (authenticate_response_classification sampleClient "/x?foo=bar" "" 404).2.1
      (by decide),
   (authenticate_response_classification sampleClient "/x" "" 404).2.2.2
      (by decide) (by decide)⟩

/-- C4 counterexample: a link `a?x=1&cID=&y=2` does contain a
customer-id segment, with an empty value, yet resolution returns the
no-`cID`-found error instead of the segment's value, so the claimed
success clause fails there and the fourth error fires on more than
"no customer-id segment". -/
theorem populatePackageID_empty_cid_counterexample :
    (goSplitAmp "a?x=1&cID=&y=2").find? (fun p => goHasPrefix p "cID=") = some "cID="
    ∧ goDropChars 4 "cID=" = ""
    ∧ populatePackageID sampleClient (.ok ⟨[("ORDER1", some "a?x=1&cID=&y=2")]⟩)
      = .error "failed to find cID in link"
    ∧ populatePackageID sampleClient (.ok ⟨[("ORDER1", some "a?x=1&cID=&y=2")]⟩)
      ≠ .ok { sampleClient with cID := "" } := by
  decide

/-- C4 (amended): on a parsed dashboard, identifier resolution splits
the first nested link of the order container on `&` and, when the
first `cID=`-prefixed segment carries a non-empty value, stores
exactly that trimmed value; the four failure shapes — container not
found, no link in the container, empty link target, and no `cID=`
segment in the link (or only one with an empty value) — each produce
their own distinct error. -/
theorem populatePackageID_resolution (c : StratoClient) (d : Dashboard) (link part : String) :
    (findOrderDiv d c.order = some (some link) → link ≠ "" →
      (goSplitAmp link).find? (fun p => goHasPrefix p "cID=") = some part →
      goDropChars 4 part ≠ "" →
      populatePackageID c (.ok d) = .ok { c with cID := goDropChars 4 part })
    ∧ (findOrderDiv d c.order = none →
      populatePackageID c (.ok d) = .error "failed to find order")
    ∧ (findOrderDiv d c.order = some none →
      populatePackageID c (.ok d) = .error "failed to find link")
    ∧ (findOrderDiv d c.order = some (some "") →
      populatePackageID c (.ok d) = .error "failed to find link value")
    ∧ (findOrderDiv d c.order = some (some link) → link ≠ "" →
      (goSplitAmp link).find? (fun p => goHasPrefix p "cID=") = none → c.cID = "" →
      populatePackageID c (.ok d) = .error "failed to find cID in link")
    ∧ (findOrderDiv d c.order = some (some link) → link ≠ "" →
      (goSplitAmp link).find? (fun p => goHasPrefix p "cID=") = some part →
      goDropChars 4 part = "" →
      populatePackageID c (.ok d) = .error "failed to find cID in link")
    ∧ (["failed to find order", "failed to find link", "failed to find link value",
        "failed to find cID in link"] : List String).Pairwise (· ≠ ·) := by
  refine ⟨fun hdiv hlink hfind hne => ?_, fun hdiv => ?_, fun hdiv => ?_,
    fun hdiv => ?_, fun hdiv hlink hfind hcid => ?_,
    fun hdiv hlink hfind hempty => ?_, by decide⟩
  · simp [populatePackageID, hdiv, hlink, hfind, hne]
  · simp [populatePackageID, hdiv]
  · simp [populatePackageID, hdiv]
  · simp [populatePackageID, hdiv]
  · simp [populatePackageID, hdiv, hlink, hfind, hcid]
  · simp [populatePackageID, hdiv, hlink, hfind, hempty]

/-- Witness for identifier resolution: the spec's example — a link
with an embedded `&cID=987&` segment resolves the customer id `987` —
the container-not-found failure, and the empty-valued `cID=` segment
failure. -/
theorem populatePackageID_resolution_witness :
    populatePackageID sampleClient (.ok ⟨[("ORDER1", some "a?x=1&cID=987&y=2")]⟩)
      = .ok { sampleClient with cID := "987" }
    ∧ populatePackageID sampleClient (.ok ⟨[]⟩) = .error "failed to find order"
    ∧ populatePackageID sampleClient (.ok ⟨[("ORDER1", some "cID=&x=1")]⟩)
      = .error "failed to find cID in link" := by
  refine ⟨?_, ?_, ?_⟩
  · have h := (populatePackageID_resolution sampleClient
      ⟨[("ORDER1", some "a?x=1&cID=987&y=2")]⟩ "a?x=1&cID=987&y=2" "cID=987").1
      (by decide) (by decide) (by decide) (by decide)
    have e : goDropChars 4 "cID=987" = "987" := by decide
    rw [e] at h
    exact h
  · exact (populatePackageID_resolution sampleClient ⟨[]⟩ "" "").2.1 (by decide)
  · exact (populatePackageID_resolution sampleClient ⟨[("ORDER1", some "cID=&x=1")]⟩
      "cID=&x=1" "cID=").2.2.2.2.2.1 (by decide) (by decide) (by decide) (by decide)

/-- C5 counterexample: a 201 response is 2xx but is rejected with the
fetch-failed error even though its body contains the form, so the
claimed "every 2xx response proceeds to parse" does not hold. -/
theorem getDNS_non200_2xx_counterexample :
    (200 ≤ 201 ∧ 201 < 300)
    ∧ GetDNSConfiguration sampleClient
        (.resp 201 (.ok ⟨some ⟨some "none", some "include", []⟩⟩))
      = (sampleClient, .error "failed to fetch TXT records")
    ∧ (some (⟨some "none", some "include", []⟩ : TxtForm) ≠ none) := by
  refine ⟨by decide, by decide, by simp⟩

/-- C5 (amended): `GetDNSConfiguration` returns the fetch-failed error
for every response whose status is not exactly 200 (including 2xx
statuses other than 200), and on a 200 response it parses the body and
returns the form-not-found error exactly when the form with the fixed
id is absent. -/
theorem getDNS_status_and_form (c : StratoClient) (status : Nat)
    (body : Except String TxtPage) (page : TxtPage) :
    (status ≠ 200 → GetDNSConfiguration c (.resp status body)
      = (c, .error "failed to fetch TXT records"))
    ∧ ((GetDNSConfiguration c (.resp 200 (.ok page))).2
      = .error "failed to find form element" ↔ page.form = none) := by
  constructor
  · intro h
    simp [GetDNSConfiguration, h]
  · cases hf : page.form with
    | none => simp [GetDNSConfiguration, hf]
    | some f =>
      obtain ⟨dm, sp, rows⟩ := f
      cases dm <;> cases sp <;>
        simp [GetDNSConfiguration, hf] <;>
        (repeat' split) <;> simp_all

/-- Witness for the read status/form classification: a 404 response
is a fetch failure, and on a 200 response with a formless page the
form-not-found error is produced. -/
theorem getDNS_status_and_form_witness :
    GetDNSConfiguration sampleClient (.resp 404 (.ok ⟨none⟩))
      = (sampleClient, .error "failed to fetch TXT records")
    ∧ (GetDNSConfiguration sampleClient (.resp 200 (.ok ⟨none⟩))).2
      = .error "failed to find form element" :=
  ⟨(getDNS_status_and_form sampleClient 404 (.ok ⟨none⟩) ⟨none⟩).1 (by decide),
   (getDNS_status_and_form sampleClient 404 (.ok ⟨none⟩) ⟨none⟩).2.mpr rfl⟩

/-- C6: a record row whose selected type option or value textarea is
missing is omitted without error; a row with a type and a value whose
prefix input is absent or empty is included with an empty-string
`Prefix`; in general an included row carries `Prefix` equal to its
prefix input's value (defaulted to `""`), and the output order is the
document order of the rows. -/
theorem parseRows_row_handling (pre post : List RecordRow) (r : RecordRow) (t v : String) :
    (r.typeVal = none ∨ r.valueText = none →
      parseRows (pre ++ r :: post) = parseRows (pre ++ post))
    ∧ (r.typeVal = some t → r.valueText = some v →
      (r.prefixVal = none ∨ r.prefixVal = some "") →
      parseRows (pre ++ r :: post)
        = parseRows pre ++ { «Type» := t, Prefix := "", Value := v } :: parseRows post)
    ∧ (r.typeVal = some t → r.valueText = some v →
      parseRows (pre ++ r :: post)
        = parseRows pre
          ++ { «Type» := t, Prefix := r.prefixVal.getD "", Value := v } :: parseRows post)
    ∧ parseRows (pre ++ post) = parseRows pre ++ parseRows post := by
  refine ⟨fun h => ?_, fun h1 h2 h3 => ?_, fun h1 h2 => ?_, ?_⟩
  · rcases h with h | h <;>
      simp [parseRows, List.filterMap_append, List.filterMap_cons, h]
  · rcases h3 with h3 | h3 <;>
      simp [parseRows, List.filterMap_append, List.filterMap_cons, h1, h2, h3]
  · simp [parseRows, List.filterMap_append, List.filterMap_cons, h1, h2]
  · simp [parseRows, List.filterMap_append]

/-- Witness for row handling: the spec's examples — a row missing its
value textarea is excluded, and a row with a type and value but no
prefix input is included with an empty prefix. -/
theorem parseRows_row_handling_witness :
    parseRows [⟨some "TXT", some "@", none⟩] = []
    ∧ parseRows [⟨some "TXT", none, some "hello"⟩]
      = [{ «Type» := "TXT", Prefix := "", Value := "hello" }] := by
  constructor
  · have h := (parseRows_row_handling [] [] ⟨some "TXT", some "@", none⟩ "TXT" "hello").1
      (Or.inr rfl)
    simpa using h
  · have h := (parseRows_row_handling [] [] ⟨some "TXT", none, some "hello"⟩ "TXT" "hello").2.1
      rfl rfl (Or.inl rfl)
    simpa using h

/-- C8: every configuration successfully returned by
`GetDNSConfiguration` has a non-empty `DMARCType` and a non-empty
`SPFType`: missing checked inputs or empty value attributes are read
errors, never empty-string fields of a returned config. -/
theorem getDNS_success_nonempty_types (c : StratoClient) (input : GetInput)
    (cfg : DNSConfig) :
    (GetDNSConfiguration c input).2 = .ok cfg →
      cfg.DMARCType ≠ "" ∧ cfg.SPFType ≠ "" := by
  intro h
  cases input with
  | reqError e => simp [GetDNSConfiguration] at h
  | sendError e => simp [GetDNSConfiguration] at h
  | resp status body =>
    simp only [GetDNSConfiguration] at h
    repeat' split at h
    all_goals simp at h
    subst h
    simp_all

/-- Witness for the non-empty-types invariant at a concrete page with
checked `dmarc_type` and `spf_type` inputs. -/
theorem getDNS_success_nonempty_types_witness :
    ({ DMARCType := "none", SPFType := "include", Records := [] } : DNSConfig).DMARCType ≠ ""
    ∧ ({ DMARCType := "none", SPFType := "include", Records := [] } : DNSConfig).SPFType ≠ "" :=
  getDNS_success_nonempty_types sampleClient
    (.resp 200 (.ok ⟨some ⟨some "none", some "include", []⟩⟩))
    { DMARCType := "none", SPFType := "include", Records := [] } (by decide)

end Strato
